import Mathlib

/-!
Verification of the Live Tracking & Estimation Engine of the `antu`
logistics dashboard.

The relevant code lives in two files:

* `src/components/shipments/ShipmentForm.jsx` — `previewCost` (tiered cost
  estimator), `haversine` (great-circle distance), and the live
  distance/cost preview pipeline (`distKm`, `costKsh`);
* `src/components/shipments/TrackingMap.jsx` — `currentPos` (position
  reconciliation), the `timeline` derivation, `buildMap` (route view
  model), and the two `useEffect` interval tasks (staleness ticker and
  auto-refresh tick).

Modelling conventions:

* JavaScript numbers that only flow through arithmetic and comparisons are
  modelled as `ℚ` (the claims are about exact formulas, and `ℚ` keeps all
  definitions executable); the trigonometric `haversine` is modelled over
  `ℝ`.
* Absent values (`null`/`undefined`) are modelled with `Option`.
* JavaScript truthiness is modelled where the code relies on it:
  `!x` is true for `null`/`undefined`, for the number `0`, and for the
  empty string.
* `Math.round x` is `⌊x + 1/2⌋` (JavaScript rounds half toward `+∞`).
-/

set_option autoImplicit false

namespace Antu

/-- JavaScript `Math.round`: round half toward positive infinity. -/
def jsRound (q : ℚ) : ℤ := ⌊q + 1/2⌋

/-- Tiered distance cost from `previewCost` (ShipmentForm.jsx lines 93–96):
first 10 km at 50/km, next 40 km at 40/km, beyond 50 km at 30/km. -/
def distCost (d : ℚ) : ℚ :=
  if d ≤ 10 then d * 50
  else if d ≤ 50 then 500 + (d - 10) * 40
  else 500 + 1600 + (d - 50) * 30

/-- Weight surcharge from `previewCost` (ShipmentForm.jsx line 97):
20 per 10 kg above 20 kg, prorated. -/
def surcharge (w : ℚ) : ℚ :=
  if w > 20 then ((w - 20) / 10) * 20 else 0

/-- `previewCost` (ShipmentForm.jsx lines 89–99).  The JS guard
`if (!distKm || !weightKg) return null` is falsy on `null`/`undefined`
and on the number `0`, so the model returns `none` exactly there. -/
def previewCost (distKm weightKg : Option ℚ) : Option ℤ :=
  match distKm, weightKg with
  | some d, some w =>
      if d = 0 ∨ w = 0 then none
      else some (jsRound (200 + distCost d + surcharge w))
  | _, _ => none

theorem previewCost_pos_eq {d w : ℚ} (hd : 0 < d) (hw : 0 < w) :
    previewCost (some d) (some w) =
      some (jsRound (200 + distCost d + surcharge w)) := by
  have hd0 : d ≠ 0 := ne_of_gt hd
  have hw0 : w ≠ 0 := ne_of_gt hw
  simp [previewCost, hd0, hw0]

theorem distCost_mono : Monotone distCost := by
  intro a b hab
  unfold distCost
  split_ifs <;> linarith

theorem surcharge_mono : Monotone surcharge := by
  intro a b hab
  unfold surcharge
  split_ifs <;> linarith

theorem jsRound_mono {a b : ℚ} (h : a ≤ b) : jsRound a ≤ jsRound b :=
  Int.floor_le_floor (by linarith)

/-- C1: for every positive distance `d` and positive weight `w`, the cost
estimator returns `round(200 + distCost + surcharge)` with the tiered
distance cost (`d*50` up to 10 km, `500 + (d-10)*40` up to 50 km,
`500 + 1600 + (d-50)*30` beyond) and the prorated weight surcharge
(`((w-20)/10)*20` above 20 kg, else 0); in particular
`estimateCost(10, 20) = 700` and `estimateCost(60, 30) = 2620`. -/
theorem previewCost_tier_formula (d w : ℚ) (hd : 0 < d) (hw : 0 < w) :
    previewCost (some d) (some w) =
      some (jsRound (200 +
        (if d ≤ 10 then d * 50
         else if d ≤ 50 then 500 + (d - 10) * 40
         else 500 + 1600 + (d - 50) * 30) +
        (if 20 < w then ((w - 20) / 10) * 20 else 0))) ∧
    previewCost (some 10) (some 20) = some 700 ∧
    previewCost (some 60) (some 30) = some 2620 := by
  refine ⟨?_, ?_, ?_⟩
  · rw [previewCost_pos_eq hd hw]
    simp only [distCost, surcharge, gt_iff_lt]
  · norm_num [previewCost, distCost, surcharge, jsRound]
  · norm_num [previewCost, distCost, surcharge, jsRound]

theorem previewCost_tier_formula_witness :
    (0 : ℚ) < 10 ∧ (0 : ℚ) < 20 ∧ previewCost (some 10) (some 20) = some 700 :=
  ⟨by norm_num, by norm_num,
   (previewCost_tier_formula 10 20 (by norm_num) (by norm_num)).2.1⟩

/-- C4 counterexample: the claim says the estimator is absent for every
non-positive input, but the JS guard `!distKm || !weightKg` only catches
falsy values (`null`, `undefined`, `0`): at distance `-1` and weight `5`
the estimator returns the number `150`, not an absent result. -/
theorem previewCost_negative_input_cex :
    (-1 : ℚ) < 0 ∧ previewCost (some (-1)) (some 5) = some 150 :=
  ⟨by norm_num, by norm_num [previewCost, distCost, surcharge, jsRound]⟩

/-- C4 amended: the cost estimator returns an absent result (and never
throws — it is a total function) whenever either input is missing
(`null`/`undefined`) or equal to `0`; strictly negative inputs are not
caught by the falsy guard and still produce a number. -/
theorem previewCost_absent_on_falsy (x : Option ℚ) (d w : ℚ) :
    previewCost none x = none ∧ previewCost x none = none ∧
    previewCost (some 0) (some w) = none ∧
    previewCost (some d) (some 0) = none := by
  refine ⟨?_, ?_, ?_, ?_⟩ <;> cases x <;> simp [previewCost]

/-- C9: the cost estimator is monotone non-decreasing in each argument over
positive inputs, and the three distance-tier pieces agree at the 10 km and
50 km boundaries, so the price never drops when crossing a tier. -/
theorem previewCost_monotone (d1 d2 dm w w1 w2 : ℚ)
    (hd1 : 0 < d1) (h12 : d1 ≤ d2) (hw : 0 < w)
    (hdm : 0 < dm) (hw1 : 0 < w1) (hw12 : w1 ≤ w2) :
    (previewCost (some d1) (some w)).getD 0 ≤
      (previewCost (some d2) (some w)).getD 0 ∧
    (previewCost (some dm) (some w1)).getD 0 ≤
      (previewCost (some dm) (some w2)).getD 0 ∧
    distCost 10 = 10 * 50 ∧ distCost 10 = 500 + (10 - 10) * 40 ∧
    distCost 50 = 500 + (50 - 10) * 40 ∧
    distCost 50 = 500 + 1600 + (50 - 50) * 30 := by
  refine ⟨?_, ?_, ?_, ?_, ?_, ?_⟩
  · rw [previewCost_pos_eq hd1 hw, previewCost_pos_eq (lt_of_lt_of_le hd1 h12) hw]
    simp only [Option.getD_some]
    exact jsRound_mono (by have := distCost_mono h12; linarith)
  · rw [previewCost_pos_eq hdm hw1, previewCost_pos_eq hdm (lt_of_lt_of_le hw1 hw12)]
    simp only [Option.getD_some]
    exact jsRound_mono (by have := surcharge_mono hw12; linarith)
  · norm_num [distCost]
  · norm_num [distCost]
  · norm_num [distCost]
  · norm_num [distCost]

theorem previewCost_monotone_witness :
    (0 : ℚ) < 1 ∧ (1 : ℚ) ≤ 2 ∧ (0 : ℚ) < 30 ∧
    (previewCost (some 1) (some 30)).getD 0 ≤
      (previewCost (some 2) (some 30)).getD 0 :=
  ⟨by norm_num, by norm_num, by norm_num,
   (previewCost_monotone 1 2 1 30 30 30 (by norm_num) (by norm_num)
     (by norm_num) (by norm_num) (by norm_num) (by norm_num)).1⟩

/-- One GPS ping from `trackingData.route` (TrackingMap.jsx data shape):
`{ lat, lng, timestamp, speed }`.  Timestamps are modelled as optional
integer instants (the code only ever formats them or leaves them alone,
and claim C10 compares them). -/
structure RouteSample where
  lat : ℚ
  lng : ℚ
  timestamp : Option ℤ
  speed : Option ℚ
deriving DecidableEq

/-- An origin/destination point `{ lat, lng, address }`.  The coordinate
fields are optional because the claims quantify over snapshots with
missing fields. -/
structure NamedPoint where
  lat : Option ℚ
  lng : Option ℚ
  address : String
deriving DecidableEq

/-- The `trackingData` object consumed by TrackingMap.jsx. -/
structure TrackingSnapshot where
  status : Option String
  origin : Option NamedPoint
  destination : Option NamedPoint
  route : List RouteSample
  current_location : Option RouteSample
  created_at : Option String
  assigned_at : Option String
  picked_up_at : Option String
  delivered_at : Option String
deriving DecidableEq

/-- Position reconciliation (TrackingMap.jsx lines 250–252):
`current_location || (route?.length ? route[route.length - 1] : null)`.
An object is always truthy, so a present `current_location` always wins;
an empty `route` has falsy length `0`. -/
def currentPos (t : TrackingSnapshot) : Option RouteSample :=
  match t.current_location with
  | some c => some c
  | none => t.route.getLast?

/-- C2: the reconciled current position is `current_location` when present;
otherwise the last element of `route` in supplied order; otherwise no
position is resolved (the unavailable state) — and any resolved position
comes from one of the two sources, so a default `(0,0)` coordinate is
never fabricated. -/
theorem currentPos_reconciliation (t : TrackingSnapshot) :
    (∀ c, t.current_location = some c → currentPos t = some c) ∧
    (t.current_location = none → currentPos t = t.route.getLast?) ∧
    (t.current_location = none → t.route = [] → currentPos t = none) ∧
    (∀ s, currentPos t = some s →
      t.current_location = some s ∨ s ∈ t.route) := by
  refine ⟨?_, ?_, ?_, ?_⟩
  · intro c hc
    simp [currentPos, hc]
  · intro hn
    simp [currentPos, hn]
  · intro hn hr
    simp [currentPos, hn, hr]
  · intro s hs
    unfold currentPos at hs
    cases hcl : t.current_location with
    | some c => rw [hcl] at hs; exact Or.inl hs
    | none =>
        rw [hcl] at hs
        exact Or.inr (List.mem_of_mem_getLast? hs)

theorem currentPos_reconciliation_witness :
    currentPos
      { status := some "in_transit", origin := none, destination := none,
        route := [⟨1, 2, some 10, none⟩],
        current_location := some ⟨3, 4, some 5, some 40⟩,
        created_at := none, assigned_at := none,
        picked_up_at := none, delivered_at := none } =
      some ⟨3, 4, some 5, some 40⟩ :=
  (currentPos_reconciliation _).1 _ rfl

/-- C10: reconciliation is purely source-priority and never consults
timestamps — a present `current_location` is used even when a route sample
(including the last one) carries a strictly newer timestamp. -/
theorem currentPos_ignores_timestamps (t : TrackingSnapshot)
    (c r : RouteSample) (tc tr : ℤ)
    (hc : t.current_location = some c) (hr : r ∈ t.route)
    (htc : c.timestamp = some tc) (htr : r.timestamp = some tr)
    (hnewer : tc < tr) :
    currentPos t = some c := by
  simp [currentPos, hc]

theorem currentPos_ignores_timestamps_witness :
    currentPos
      { status := none, origin := none, destination := none,
        route := [⟨1, 1, some 100, none⟩],
        current_location := some ⟨0, 0, some 5, none⟩,
        created_at := none, assigned_at := none,
        picked_up_at := none, delivered_at := none } =
      some ⟨0, 0, some 5, none⟩ :=
  currentPos_ignores_timestamps _ ⟨0, 0, some 5, none⟩ ⟨1, 1, some 100, none⟩
    5 100 rfl (by simp) rfl rfl (by norm_num)

/-- One entry of the `timeline` array (TrackingMap.jsx lines 315–320). -/
structure TimelineStep where
  label : String
  time : Option String
  done : Bool
  active : Bool
deriving DecidableEq

/-- JavaScript double negation `!!x` on an optional string: `null`,
`undefined` and the empty string are falsy. -/
def jsTruthyStr : Option String → Bool
  | none => false
  | some s => !(s == "")

/-- The delivery timeline (TrackingMap.jsx lines 315–320): four steps whose
`done` flag is the truthiness of the matching timestamp field and whose
`active` flag compares the snapshot status with the step's status;
`Delivered` is hard-coded inactive. -/
def timeline (t : TrackingSnapshot) : List TimelineStep :=
  [ ⟨"Created", t.created_at, jsTruthyStr t.created_at,
      t.status == some "pending"⟩,
    ⟨"Assigned", t.assigned_at, jsTruthyStr t.assigned_at,
      t.status == some "assigned"⟩,
    ⟨"Transit", t.picked_up_at, jsTruthyStr t.picked_up_at,
      t.status == some "in_transit"⟩,
    ⟨"Delivered", t.delivered_at, jsTruthyStr t.delivered_at, false⟩ ]

theorem jsTruthyStr_eq_isSome {o : Option String} (h : o ≠ some "") :
    jsTruthyStr o = o.isSome := by
  cases o with
  | none => rfl
  | some s =>
      simp only [jsTruthyStr, Option.isSome_some]
      simp only [ne_eq, Option.some.injEq] at h
      simp [h]

/-- C5: the derived timeline consists of exactly the four steps Created,
Assigned, Transit, Delivered in that order; a step is completed iff its
timestamp field (`created_at`, `assigned_at`, `picked_up_at`,
`delivered_at`) is present, a step is active iff the status equals its
associated status, and Delivered is never active.  A snapshot with only
`created_at` set and `status = pending` yields exactly one
completed-and-active step and three steps neither completed nor active.
The hypotheses record that a present timestamp is a non-empty string (the
backend sends ISO timestamps or `null`). -/
theorem timeline_four_steps (t : TrackingSnapshot)
    (h1 : t.created_at ≠ some "") (h2 : t.assigned_at ≠ some "")
    (h3 : t.picked_up_at ≠ some "") (h4 : t.delivered_at ≠ some "") :
    (timeline t).map TimelineStep.label =
      ["Created", "Assigned", "Transit", "Delivered"] ∧
    (timeline t).map TimelineStep.done =
      [t.created_at.isSome, t.assigned_at.isSome,
       t.picked_up_at.isSome, t.delivered_at.isSome] ∧
    (timeline t).map TimelineStep.active =
      [t.status == some "pending", t.status == some "assigned",
       t.status == some "in_transit", false] ∧
    (t.status = some "pending" → t.created_at.isSome = true →
      t.assigned_at = none → t.picked_up_at = none → t.delivered_at = none →
      ((timeline t).filter (fun s => s.done && s.active)).length = 1 ∧
      ((timeline t).filter (fun s => !s.done && !s.active)).length = 3) := by
  refine ⟨?_, ?_, ?_, ?_⟩
  · rfl
  · simp only [timeline, List.map]
    rw [jsTruthyStr_eq_isSome h1, jsTruthyStr_eq_isSome h2,
        jsTruthyStr_eq_isSome h3, jsTruthyStr_eq_isSome h4]
  · rfl
  · intro hs hc ha hp hd
    obtain ⟨cs, hcs⟩ := Option.isSome_iff_exists.mp hc
    have hcs' : cs ≠ "" := by
      intro h
      exact h1 (by rw [hcs, h])
    have hb : (cs == "") = false := beq_eq_false_iff_ne.mpr hcs'
    simp [timeline, List.filter, hs, hcs, ha, hp, hd, jsTruthyStr, hb]

theorem timeline_four_steps_witness :
    ((timeline
      { status := some "pending", origin := none, destination := none,
        route := [], current_location := none,
        created_at := some "2024-01-01T08:00:00Z", assigned_at := none,
        picked_up_at := none, delivered_at := none }).filter
        (fun s => s.done && s.active)).length = 1 ∧
    ((timeline
      { status := some "pending", origin := none, destination := none,
        route := [], current_location := none,
        created_at := some "2024-01-01T08:00:00Z", assigned_at := none,
        picked_up_at := none, delivered_at := none }).filter
        (fun s => !s.done && !s.active)).length = 3 :=
  (timeline_four_steps _ (by simp) (by simp) (by simp) (by simp)).2.2.2
    rfl rfl rfl rfl rfl

/-- JavaScript truthiness of an optional number (`!x` is true for `null`,
`undefined` and `0`). -/
def jsTruthyQ : Option ℚ → Bool
  | none => false
  | some q => !(q == 0)

/-- The renderable primitives produced by `buildMap`
(TrackingMap.jsx lines 177–303): origin/destination markers, the dashed
reference line, the GPS polyline (only with at least two samples), the
live-position marker at the reconciled position, and the list of
coordinates passed to `fitBounds` (the viewport). -/
structure MapModel where
  originMarker : Option ℚ × Option ℚ
  destMarker : Option ℚ × Option ℚ
  refLine : (Option ℚ × Option ℚ) × (Option ℚ × Option ℚ)
  routeLine : Option (List (ℚ × ℚ))
  liveMarker : Option (ℚ × ℚ)
  bounds : List (Option ℚ × Option ℚ)
deriving DecidableEq

/-- `buildMap` (TrackingMap.jsx lines 177–303), as the geometry it emits.
The early returns `if (!mapDivRef.current || !trackingData) return` and
`if (!origin?.lat || !destination?.lat) return` become `none` (nothing is
rendered; the DOM-node guard is outside the data model).  Note the guard
only inspects the two `lat` fields. -/
def buildMap (td : Option TrackingSnapshot) : Option MapModel :=
  match td with
  | none => none
  | some t =>
    match t.origin, t.destination with
    | some o, some dst =>
        if jsTruthyQ o.lat && jsTruthyQ dst.lat then
          some
            { originMarker := (o.lat, o.lng)
              destMarker := (dst.lat, dst.lng)
              refLine := ((o.lat, o.lng), (dst.lat, dst.lng))
              routeLine :=
                if 2 ≤ t.route.length then
                  some (t.route.map fun p => (p.lat, p.lng))
                else none
              liveMarker := (currentPos t).map fun c => (c.lat, c.lng)
              bounds :=
                (o.lat, o.lng) :: (dst.lat, dst.lng) ::
                  t.route.map fun p => (some p.lat, some p.lng) }
        else none
    | _, _ => none

/-- C8 counterexample: the claim says a snapshot whose `origin.lng` is
absent emits no markers and no viewport, but the guard in `buildMap` only
checks the `lat` fields: a snapshot with `origin.lng` missing (lats and
destination present) still renders a full frame. -/
theorem buildMap_missing_lng_renders_cex :
    (some
      { status := none,
        origin := some ⟨some 1, none, "a"⟩,
        destination := some ⟨some 2, some 36, "b"⟩,
        route := [], current_location := none,
        created_at := none, assigned_at := none,
        picked_up_at := none, delivered_at := none } :
      Option TrackingSnapshot).any (fun t =>
        (t.origin.map NamedPoint.lng).getD none == none) = true ∧
    buildMap (some
      { status := none,
        origin := some ⟨some 1, none, "a"⟩,
        destination := some ⟨some 2, some 36, "b"⟩,
        route := [], current_location := none,
        created_at := none, assigned_at := none,
        picked_up_at := none, delivered_at := none }) =
      some
        { originMarker := (some 1, none)
          destMarker := (some 2, some 36)
          refLine := ((some 1, none), (some 2, some 36))
          routeLine := none
          liveMarker := none
          bounds := [(some 1, none), (some 2, some 36)] } := by
  constructor
  · rfl
  · simp [buildMap, jsTruthyQ, currentPos]

/-- C8 amended: `buildMap` emits nothing (the insufficient-data state)
when the tracking data is absent, when an endpoint object is absent, or
when an endpoint `lat` field is absent or `0` (JS falsy); conversely,
whenever both `lat` fields are present and non-zero it renders a full
frame, so a missing longitude alone does not suppress rendering. -/
theorem buildMap_insufficient :
    buildMap none = none ∧
    (∀ t, t.origin = none → buildMap (some t) = none) ∧
    (∀ t, t.destination = none → buildMap (some t) = none) ∧
    (∀ t o, t.origin = some o → o.lat = none ∨ o.lat = some 0 →
      buildMap (some t) = none) ∧
    (∀ t dst, t.destination = some dst → dst.lat = none ∨ dst.lat = some 0 →
      buildMap (some t) = none) ∧
    (∀ t o dst ol dl, t.origin = some o → t.destination = some dst →
      o.lat = some ol → dst.lat = some dl → ol ≠ 0 → dl ≠ 0 →
      (buildMap (some t)).isSome = true) := by
  refine ⟨rfl, ?_, ?_, ?_, ?_, ?_⟩
  · intro t h
    simp [buildMap, h]
  · intro t h
    cases ho : t.origin <;> simp [buildMap, ho, h]
  · intro t o ho hl
    cases hd : t.destination with
    | none => simp [buildMap, ho, hd]
    | some dst =>
        rcases hl with h | h <;> simp [buildMap, ho, hd, h, jsTruthyQ]
  · intro t dst hd hl
    cases ho : t.origin with
    | none => simp [buildMap, ho]
    | some o =>
        rcases hl with h | h <;> simp [buildMap, ho, hd, h, jsTruthyQ]
  · intro t o dst ol dl ho hd hol hdl h1 h2
    have b1 : (ol == 0) = false := beq_eq_false_iff_ne.mpr h1
    have b2 : (dl == 0) = false := beq_eq_false_iff_ne.mpr h2
    simp [buildMap, ho, hd, hol, hdl, jsTruthyQ, b1, b2]

theorem buildMap_insufficient_witness :
    buildMap (some
      { status := none, origin := none,
        destination := some ⟨some 2, some 36, "b"⟩,
        route := [], current_location := none,
        created_at := none, assigned_at := none,
        picked_up_at := none, delivered_at := none }) = none :=
  buildMap_insufficient.2.1 _ rfl

/-- Timer state of one mounted `TrackingMap` view.  TrackingMap.jsx owns
two `setInterval` handles: the 1-second staleness ticker (effect with
dependency list `[]`, lines 159–164) and the 30-second refresh tick
(effect with dependency list `[autoRefresh, onRefresh]`, lines 167–174).
`tickerActive` / `refreshActive` record whether the corresponding interval
handle currently exists; a periodic callback can fire exactly while its
handle exists. -/
structure SchedState where
  mounted : Bool
  autoRefresh : Bool
  hasOnRefresh : Bool
  tickerActive : Bool
  refreshActive : Bool
deriving DecidableEq

/-- Lifecycle events after the view has mounted: teardown of the view, or
a change of the `autoRefresh` prop (the `onRefresh` prop is assumed
referentially stable, as in the documented usage). -/
inductive SchedEvent where
  | unmount : SchedEvent
  | setAutoRefresh : Bool → SchedEvent
deriving DecidableEq

/-- Mounting the view: the ticker effect always installs its interval; the
refresh effect installs one only when `autoRefresh && onRefresh` holds
(the early return at TrackingMap.jsx line 168). -/
def schedMount (autoRefresh hasOnRefresh : Bool) : SchedState :=
  { mounted := true, autoRefresh := autoRefresh, hasOnRefresh := hasOnRefresh,
    tickerActive := true,
    refreshActive := autoRefresh && hasOnRefresh }

/-- React semantics of the two effects for one event:
`unmount` runs both cleanups (both `clearInterval` calls);
`setAutoRefresh b` re-runs only the second effect when its dependency
actually changed (cleanup of the old refresh interval, then a new one iff
`b && hasOnRefresh`) and leaves the `[]`-dependency ticker effect alone.
Events reaching an unmounted view do nothing. -/
def schedStep (s : SchedState) : SchedEvent → SchedState
  | .unmount =>
      { s with mounted := false, tickerActive := false, refreshActive := false }
  | .setAutoRefresh b =>
      if s.mounted then
        if b == s.autoRefresh then s
        else { s with autoRefresh := b,
                      refreshActive := b && s.hasOnRefresh }
      else s

/-- Folding a sequence of lifecycle events. -/
def schedRun (s : SchedState) (evs : List SchedEvent) : SchedState :=
  evs.foldl schedStep s

theorem schedRun_nil (s : SchedState) : schedRun s [] = s := rfl

theorem schedRun_cons (s : SchedState) (e : SchedEvent)
    (evs : List SchedEvent) :
    schedRun s (e :: evs) = schedRun (schedStep s e) evs := rfl

theorem schedStep_dead (s : SchedState) (e : SchedEvent)
    (hm : s.mounted = false) (ht : s.tickerActive = false)
    (hr : s.refreshActive = false) :
    (schedStep s e).mounted = false ∧
    (schedStep s e).tickerActive = false ∧
    (schedStep s e).refreshActive = false := by
  cases e with
  | unmount => exact ⟨rfl, rfl, rfl⟩
  | setAutoRefresh b => simp [schedStep, hm, ht, hr]

theorem schedRun_dead (evs : List SchedEvent) :
    ∀ s : SchedState, s.mounted = false → s.tickerActive = false →
      s.refreshActive = false →
      (schedRun s evs).tickerActive = false ∧
      (schedRun s evs).refreshActive = false := by
  induction evs with
  | nil => intro s _ ht hr; exact ⟨ht, hr⟩
  | cons e evs ih =>
      intro s hm ht hr
      obtain ⟨hm2, ht2, hr2⟩ := schedStep_dead s e hm ht hr
      rw [schedRun_cons]
      exact ih _ hm2 ht2 hr2

theorem schedRun_refresh_off (evs : List SchedEvent) :
    ∀ s : SchedState, s.refreshActive = false →
      (s.mounted = true → s.autoRefresh = false) →
      (∀ e ∈ evs, e ≠ SchedEvent.setAutoRefresh true) →
      (schedRun s evs).refreshActive = false := by
  induction evs with
  | nil => intro s hr _ _; exact hr
  | cons e evs ih =>
      intro s hr har hev
      rw [schedRun_cons]
      have hev2 : ∀ e2 ∈ evs, e2 ≠ SchedEvent.setAutoRefresh true :=
        fun e2 he2 => hev e2 (List.mem_cons_of_mem e he2)
      cases e with
      | unmount =>
          exact ih _ rfl (by intro h; simp [schedStep] at h) hev2
      | setAutoRefresh b =>
          have hb : b = false := by
            have := hev (SchedEvent.setAutoRefresh b)
              (List.mem_cons_self _ _)
            cases b with
            | false => rfl
            | true => exact absurd rfl this
          subst hb
          by_cases hm : s.mounted
          · have ha : s.autoRefresh = false := har hm
            refine ih _ ?_ ?_ hev2 <;>
              simp [schedStep, hm, ha, hr]
          · have hm2 : s.mounted = false := by simpa using hm
            refine ih _ ?_ ?_ hev2 <;> simp [schedStep, hm2, hr, har]

/-- C3 counterexample: the claim says that once `autoRefresh` transitions
to false no further staleness-ticker callback ever fires, but the ticker
effect has dependency list `[]` and is only cleaned up at unmount: after
mounting with `autoRefresh = true` and then setting it to false, the
1-second ticker interval still exists and its callback keeps firing. -/
theorem ticker_after_autoRefresh_off_cex :
    (schedStep (schedMount true true)
        (SchedEvent.setAutoRefresh false)).tickerActive = true ∧
    (schedStep (schedMount true true)
        (SchedEvent.setAutoRefresh false)).refreshActive = false := by
  constructor <;> rfl

/-- C3 amended: teardown deterministically releases both periodic tasks —
after `unmount` neither the refresh callback nor the ticker callback can
ever fire again, for any number of subsequent periods/events; and once
`autoRefresh` transitions to false the 30-second refresh tick never fires
again (while it is not re-enabled), although the 1-second staleness ticker
keeps running until teardown. -/
theorem sched_teardown_releases (s : SchedState) (evs : List SchedEvent) :
    (schedRun (schedStep s SchedEvent.unmount) evs).tickerActive = false ∧
    (schedRun (schedStep s SchedEvent.unmount) evs).refreshActive = false ∧
    (s.mounted = true → s.autoRefresh = true →
      (∀ e ∈ evs, e ≠ SchedEvent.setAutoRefresh true) →
      (schedRun (schedStep s (SchedEvent.setAutoRefresh false))
        evs).refreshActive = false) := by
  obtain ⟨h1, h2⟩ := schedRun_dead evs (schedStep s SchedEvent.unmount)
    rfl rfl rfl
  refine ⟨h1, h2, ?_⟩
  intro hm ha hev
  refine schedRun_refresh_off evs _ ?_ ?_ hev <;>
    simp [schedStep, hm, ha]

theorem sched_teardown_releases_witness :
    (schedRun
      (schedStep (schedMount true true) (SchedEvent.setAutoRefresh false))
      [SchedEvent.setAutoRefresh false, SchedEvent.unmount,
       SchedEvent.setAutoRefresh false]).refreshActive = false :=
  (sched_teardown_releases (schedMount true true)
    [SchedEvent.setAutoRefresh false, SchedEvent.unmount,
     SchedEvent.setAutoRefresh false]).2.2 rfl rfl (by decide)

/-- JavaScript `Math.atan2` over the real numbers (the standard atan2
branch definition; `atan2 0 0 = 0` as in IEEE/JS). -/
noncomputable def atan2 (y x : ℝ) : ℝ :=
  if 0 < x then Real.arctan (y / x)
  else if x < 0 ∧ 0 ≤ y then Real.arctan (y / x) + Real.pi
  else if x < 0 ∧ y < 0 then Real.arctan (y / x) - Real.pi
  else if x = 0 ∧ 0 < y then Real.pi / 2
  else if x = 0 ∧ y < 0 then -(Real.pi / 2)
  else 0

/-- `haversine` (ShipmentForm.jsx lines 102–110): great-circle distance
with Earth radius 6371 km, modelled over `ℝ`. -/
noncomputable def haversine (lat1 lon1 lat2 lon2 : ℝ) : ℝ :=
  let R : ℝ := 6371
  let dL := (lat2 - lat1) * Real.pi / 180
  let dN := (lon2 - lon1) * Real.pi / 180
  let a := Real.sin (dL / 2) ^ 2 +
    Real.cos (lat1 * Real.pi / 180) * Real.cos (lat2 * Real.pi / 180) *
      Real.sin (dN / 2) ^ 2
  R * 2 * atan2 (Real.sqrt a) (Real.sqrt (1 - a))

/-- C6: the great-circle distance is zero on equal points and symmetric
for all valid coordinates (latitude within ±90, longitude within ±180). -/
theorem haversine_zero_and_symm (lat1 lon1 lat2 lon2 : ℝ)
    (h1 : -90 ≤ lat1) (h2 : lat1 ≤ 90) (h3 : -180 ≤ lon1) (h4 : lon1 ≤ 180)
    (h5 : -90 ≤ lat2) (h6 : lat2 ≤ 90) (h7 : -180 ≤ lon2)
    (h8 : lon2 ≤ 180) :
    haversine lat1 lon1 lat1 lon1 = 0 ∧
    haversine lat1 lon1 lat2 lon2 = haversine lat2 lon2 lat1 lon1 := by
  constructor
  · unfold haversine
    simp only [sub_self, zero_mul, mul_zero, zero_div, Real.sin_zero]
    norm_num
    simp [atan2, Real.sqrt_one]
  · simp only [haversine]
    have e1 : (lat1 - lat2) * Real.pi / 180 / 2 =
        -((lat2 - lat1) * Real.pi / 180 / 2) := by ring
    have e2 : (lon1 - lon2) * Real.pi / 180 / 2 =
        -((lon2 - lon1) * Real.pi / 180 / 2) := by ring
    rw [e1, e2, Real.sin_neg, Real.sin_neg]
    ring_nf

theorem haversine_zero_and_symm_witness : haversine 0 0 0 0 = 0 :=
  (haversine_zero_and_symm 0 0 0 0 (by norm_num) (by norm_num) (by norm_num)
    (by norm_num) (by norm_num) (by norm_num) (by norm_num) (by norm_num)).1

/-- Digits of a decimal literal, most significant first. -/
def digitsToNat (ds : List Char) : ℕ :=
  ds.foldl (fun a c => 10 * a + (c.toNat - 48)) 0

/-- A model of JavaScript `parseFloat` on the strings the form produces:
optional sign, integer part, optional fractional part; trailing
non-numeric characters are ignored, and a string with no leading numeric
prefix (in particular the empty string) parses to NaN (`none`). -/
def parseDec (s : String) : Option ℚ :=
  let cs := s.toList
  let signRest : ℚ × List Char :=
    match cs with
    | c :: rest =>
        if c = '-' then (-1, rest)
        else if c = '+' then (1, rest) else (1, cs)
    | [] => (1, cs)
  let ip := signRest.2.takeWhile Char.isDigit
  let rest1 := signRest.2.dropWhile Char.isDigit
  match rest1 with
  | c :: rest2 =>
      if c = '.' then
        let fp := rest2.takeWhile Char.isDigit
        if ip.isEmpty && fp.isEmpty then none
        else some (signRest.1 *
          ((digitsToNat ip : ℚ) + (digitsToNat fp : ℚ) / (10 : ℚ) ^ fp.length))
      else if ip.isEmpty then none
      else some (signRest.1 * (digitsToNat ip : ℚ))
  | [] =>
      if ip.isEmpty then none
      else some (signRest.1 * (digitsToNat ip : ℚ))

/-- A JavaScript number that is either NaN or an actual real value.  Every
arithmetic step of the preview pipeline propagates NaN. -/
inductive JNum where
  | nan : JNum
  | val : ℝ → JNum

/-- `parseFloat` as used by the live preview: NaN on non-numeric input. -/
noncomputable def jsParseFloat (s : String) : JNum :=
  match parseDec s with
  | some q => JNum.val (q : ℝ)
  | none => JNum.nan

/-- `haversine` lifted to JavaScript numbers: every `Math` operation and
arithmetic operator in the JS body maps NaN inputs to NaN, so the whole
function returns NaN as soon as any argument is NaN. -/
noncomputable def haversineJS : JNum → JNum → JNum → JNum → JNum
  | JNum.val a, JNum.val b, JNum.val c, JNum.val d =>
      JNum.val (haversine a b c d)
  | _, _, _, _ => JNum.nan

/-- The five form fields feeding the live distance/cost preview
(ShipmentForm.jsx); every field holds the raw input string. -/
structure FormState where
  origin_latitude : String
  origin_longitude : String
  destination_latitude : String
  destination_longitude : String
  weight_kg : String

/-- JavaScript truthiness of a string: only the empty string is falsy. -/
def jsTruthyS (s : String) : Bool := !(s == "")

/-- The live distance preview (ShipmentForm.jsx lines 330–335):
`(form.origin_latitude && form.destination_latitude) ? haversine(...) :
null`.  Only the two latitude fields are checked for truthiness; all four
fields are then passed through `parseFloat`.  `none` is the absent
preview; `some v` is the value whose `.toFixed(2)` rendering is displayed
(and `.toFixed(2)` of any JS number, NaN included, is a non-empty and
hence truthy string). -/
noncomputable def distKmPreview (f : FormState) : Option JNum :=
  if jsTruthyS f.origin_latitude && jsTruthyS f.destination_latitude then
    some (haversineJS (jsParseFloat f.origin_latitude)
      (jsParseFloat f.origin_longitude)
      (jsParseFloat f.destination_latitude)
      (jsParseFloat f.destination_longitude))
  else none

/-- C7 (code bug): the claim says the distance and cost previews become
absent the instant any required input is empty, but the guard checks only
the two latitude fields: with origin latitude `"1"`, origin longitude
empty, destination `"2"`/`"36"` and weight `"5"`, the distance preview is
still produced, and `parseFloat("")` being NaN makes it the NaN value —
the UI displays "NaN km" instead of hiding the preview. -/
theorem distKm_present_on_missing_longitude :
    (⟨"1", "", "2", "36", "5"⟩ : FormState).origin_longitude = "" ∧
    distKmPreview ⟨"1", "", "2", "36", "5"⟩ = some JNum.nan := by
  constructor
  · rfl
  · rfl

end Antu

